import Mathlib

/-!
Shallow embedding of the turn-processing pipeline of the ACC agent
(`src/acc_agent/core.py`, `memory.py`, `introspection.py`, `memory_manager.py`,
`server.py`).  External collaborators (the LLM "oracle", the vector-store
backend, the filesystem) are modelled as explicit function parameters; a
Python call that may raise is modelled as a function returning `Except String`.
-/

namespace ACC

/-- Embedding of `CompressedCognitiveState` from `src/acc_agent/schemas.py`:
the bounded state object (CCS) carried between turns. -/
structure CompressedCognitiveState where
  episodic_trace : String
  semantic_gist : String
  focal_entities : List String
  relational_map : List String
  goal_orientation : String
  constraints : List String
  predictive_cue : Option String
  uncertainty_signal : String
  retrieved_artifacts : List String
deriving DecidableEq, Repr, Inhabited

/-- Embedding of `ArtifactStore.recall` from `src/acc_agent/memory.py`.
`backendQuery` models `self.collection.query(query_texts=[query], n_results=n_results)`
followed by extraction of the `documents` field: it returns the list of
per-query document lists, or raises.  The Python body is
`results['documents'][0] if results['documents'] else []`, with no
exception handling around the backend call. -/
def ArtifactStore.recall (backendQuery : String → Nat → Except String (List (List String)))
    (query : String) (n_results : Nat) : Except String (List String) :=
  match backendQuery query n_results with
  | Except.error e => Except.error e
  | Except.ok documents =>
    match documents with
    | [] => Except.ok []
    | d :: _ => Except.ok d

/-- Embedding of the `search_memory` tool closure defined in
`AgentEngine.__init__` (`src/acc_agent/core.py`).  `recallF` is the pure
result of `self.store.recall(query, n_results=3)`. -/
def search_memory (recallF : String → List String) (query : String) : String :=
  let results := recallF query
  if results = [] then "No relevant information found."
  else String.intercalate "\n---\n" results

/-- Prompt variables handed to the Qualify oracle
(`CognitiveCompressorModel.qualify_artifacts`). -/
structure QualifyPromptVars where
  current_input : String
  ccs_gist : String
  artifacts_list : String
deriving DecidableEq, Repr

/-- Embedding of `CognitiveCompressorModel.qualify_artifacts`
(`src/acc_agent/core.py`).  Returns `[]` on an empty artifact list; invokes
the oracle otherwise and degrades to `[]` when the oracle raises
(the `except` branch of the source). -/
def qualify_artifacts (oracle : QualifyPromptVars → Except String (List String))
    (current_input : String) (ccs : Option CompressedCognitiveState)
    (artifacts : List String) : List String :=
  if artifacts = [] then []
  else
    match oracle { current_input := current_input
                 , ccs_gist := match ccs with | some c => c.semantic_gist | none => "None"
                 , artifacts_list := String.intercalate "\n---\n" artifacts } with
    | Except.ok result => result
    | Except.error _ => []

/-- Rendering of a CCS used for `prev_ccs.model_dump_json(indent=2)`; the
exact textual shape is irrelevant to the verified properties, only that it
is a function of the CCS. -/
def ccsDumpJson (c : CompressedCognitiveState) : String :=
  String.intercalate "\n"
    [ "episodic_trace: " ++ c.episodic_trace
    , "semantic_gist: " ++ c.semantic_gist
    , "focal_entities: " ++ String.intercalate ", " c.focal_entities
    , "relational_map: " ++ String.intercalate ", " c.relational_map
    , "goal_orientation: " ++ c.goal_orientation
    , "constraints: " ++ String.intercalate ", " c.constraints
    , "predictive_cue: " ++ (match c.predictive_cue with | some p => p | none => "null")
    , "uncertainty_signal: " ++ c.uncertainty_signal
    , "retrieved_artifacts: " ++ String.intercalate ", " c.retrieved_artifacts ]

/-- Prompt variables handed to the Compress-and-Commit oracle
(the `input_vars` dictionary of `CognitiveCompressorModel.compress_and_commit`). -/
structure CommitPromptVars where
  prev_state_json : String
  artifacts : String
  current_input : String
  agents_context : String
  long_term_memory : String
deriving DecidableEq, Repr

/-- Construction of the `input_vars` dictionary in
`CognitiveCompressorModel.compress_and_commit` (`src/acc_agent/core.py`). -/
def commitPromptVars (agents_context current_input : String)
    (prev_ccs : Option CompressedCognitiveState) (qualified_artifacts : List String)
    (long_term_memory : String) : CommitPromptVars :=
  { prev_state_json := match prev_ccs with
      | some c => ccsDumpJson c
      | none => "None (Initial State)"
  , artifacts := if qualified_artifacts = [] then "None"
      else String.intercalate "\n---\n" qualified_artifacts
  , current_input := current_input
  , agents_context := agents_context
  , long_term_memory := long_term_memory }

/-- Embedding of `CognitiveCompressorModel.compress_and_commit`
(`src/acc_agent/core.py`).  The source builds the prompt variables, invokes
`chain.invoke(input_vars)` with no exception handling, and returns the
oracle's structured output `new_ccs` unchanged. -/
def compress_and_commit (oracle : CommitPromptVars → Except String CompressedCognitiveState)
    (agents_context current_input : String) (prev_ccs : Option CompressedCognitiveState)
    (qualified_artifacts : List String) (long_term_memory : String) :
    Except String CompressedCognitiveState :=
  oracle (commitPromptVars agents_context current_input prev_ccs qualified_artifacts long_term_memory)

/-- Tool-call request attached to an oracle response, mirroring the
`tool_call` dictionaries (`name`, `args`, `id`) consumed by the loops in
`AgentEngine` (`src/acc_agent/core.py`). -/
structure ToolCall where
  name : String
  args : String
  id : String
deriving DecidableEq, Repr

/-- Oracle response: content plus the (possibly empty) `tool_calls` list,
mirroring the LangChain `AIMessage` as consumed by `AgentEngine`. -/
structure AIResp where
  content : String
  tool_calls : List ToolCall
deriving DecidableEq, Repr, Inhabited

/-- Message record handed to the oracle (system prompt, history entries,
the human input, appended assistant responses and tool outputs). -/
inductive Msg where
  | system (content : String)
  | human (content : String)
  | ai (resp : AIResp)
  | tool (content : String) (tool_call_id : String)
deriving DecidableEq, Repr

/-- Context documents held by `AgentEngine`. -/
structure AgentEngineCtx where
  identity_context : String
  soul_context : String
  user_context : String
  agents_context : String
deriving DecidableEq, Repr

/-- Rendering of the system prompt of `generate_response` /
`generate_response_stream`; the two source methods use a textually
identical template, so both variants share this definition. -/
def actionSystemPrompt (ctx : AgentEngineCtx) (recent_memory ccs_json : String) : String :=
  ctx.identity_context ++ "\n" ++ ctx.soul_context ++ "\n" ++ ctx.agents_context ++ "\n" ++
    ctx.user_context ++ "\n" ++ recent_memory ++ "\n" ++ ccs_json

/-- Embedding of `prompt.format_messages(**input_vars)`: system prompt,
then the history placeholder, then the human input. -/
def buildActionMessages (ctx : AgentEngineCtx) (current_input : String)
    (ccs : CompressedCognitiveState) (recent_memory : String) (history : List Msg) : List Msg :=
  Msg.system (actionSystemPrompt ctx recent_memory (ccsDumpJson ccs)) :: (history ++ [Msg.human current_input])

/-- Tool-execution step shared by both loops: one `ToolMessage` per
requested tool call, whose content is the `search_memory` result for the
call's arguments. -/
def toolMessages (recallF : String → List String) (tool_calls : List ToolCall) : List Msg :=
  tool_calls.map fun tc => Msg.tool (search_memory recallF tc.args) tc.id

/-- Observable trace of one synchronous `generate_response` run:
the oracle responses received inside the while-loop (re-invocations), the
final `ai_msg` whose `content` is returned, and the tool calls executed,
in order. -/
structure SyncRun where
  reinvocations : List AIResp
  final : AIResp
  tools : List ToolCall
deriving Repr

/-- Embedding of the `while ai_msg.tool_calls and tool_iterations < 3`
loop of `AgentEngine.generate_response`; `fuel = 3 - tool_iterations`. -/
def generate_response_aux (oracle : List Msg → AIResp) (recallF : String → List String) :
    Nat → List Msg → AIResp → SyncRun
  | 0, _, ai_msg => { reinvocations := [], final := ai_msg, tools := [] }
  | fuel + 1, messages, ai_msg =>
    if ai_msg.tool_calls = [] then { reinvocations := [], final := ai_msg, tools := [] }
    else
      let messages2 := messages ++ [Msg.ai ai_msg] ++ toolMessages recallF ai_msg.tool_calls
      let next := oracle messages2
      let rest := generate_response_aux oracle recallF fuel messages2 next
      { reinvocations := next :: rest.reinvocations
      , final := rest.final
      , tools := ai_msg.tool_calls ++ rest.tools }

/-- Full synchronous run: the first oracle invocation followed by the
bounded loop. -/
def generate_response_run (oracle : List Msg → AIResp) (recallF : String → List String)
    (messages : List Msg) : SyncRun :=
  generate_response_aux oracle recallF 3 messages (oracle messages)

/-- Embedding of `AgentEngine.generate_response` (`src/acc_agent/core.py`):
returns `ai_msg.content` of the last oracle response. -/
def generate_response (oracle : List Msg → AIResp) (recallF : String → List String)
    (ctx : AgentEngineCtx) (current_input : String) (ccs : CompressedCognitiveState)
    (recent_memory : String) (history : List Msg) : String :=
  (generate_response_run oracle recallF
    (buildActionMessages ctx current_input ccs recent_memory history)).final.content

/-- Number of oracle invocations performed by a synchronous run
(the initial call plus every re-invocation inside the loop). -/
def syncOracleCalls (oracle : List Msg → AIResp) (recallF : String → List String)
    (messages : List Msg) : Nat :=
  (generate_response_run oracle recallF messages).reinvocations.length + 1

/-- One item yielded by the streaming generator: either a content fragment
or the literal progress marker emitted between iterations. -/
inductive StreamItem where
  | content (s : String)
  | marker
deriving DecidableEq, Repr

/-- Literal progress marker yielded by `generate_response_stream`. -/
def progressMarker : String := "\n(Searching memory...)\n"

/-- Observable trace of one `generate_response_stream` run: the yielded
items, the oracle responses consumed, and the tool calls executed. -/
structure StreamRun where
  items : List StreamItem
  responses : List AIResp
  tools : List ToolCall
deriving Repr

/-- Embedding of the `while tool_iterations < 3` loop of
`AgentEngine.generate_response_stream`; each iteration streams one oracle
response (its fragments concatenate to `resp.content`), then inspects the
reassembled message for tool calls: if none, the loop breaks; otherwise it
yields the progress marker, executes the tools and re-enters with
`fuel = 3 - tool_iterations` decremented. -/
def generate_response_stream_aux (oracle : List Msg → AIResp) (recallF : String → List String) :
    Nat → List Msg → StreamRun
  | 0, _ => { items := [], responses := [], tools := [] }
  | fuel + 1, messages =>
    let resp := oracle messages
    if resp.tool_calls = [] then
      { items := [StreamItem.content resp.content], responses := [resp], tools := [] }
    else
      let messages2 := messages ++ [Msg.ai resp] ++ toolMessages recallF resp.tool_calls
      let rest := generate_response_stream_aux oracle recallF fuel messages2
      { items := StreamItem.content resp.content :: StreamItem.marker :: rest.items
      , responses := resp :: rest.responses
      , tools := resp.tool_calls ++ rest.tools }

/-- Full streaming run starting from the formatted messages. -/
def generate_response_stream_run (oracle : List Msg → AIResp) (recallF : String → List String)
    (messages : List Msg) : StreamRun :=
  generate_response_stream_aux oracle recallF 3 messages

/-- Embedding of `AgentEngine.generate_response_stream`
(`src/acc_agent/core.py`): the ordered sequence of yielded items. -/
def generate_response_stream (oracle : List Msg → AIResp) (recallF : String → List String)
    (ctx : AgentEngineCtx) (current_input : String) (ccs : CompressedCognitiveState)
    (recent_memory : String) (history : List Msg) : List StreamItem :=
  (generate_response_stream_run oracle recallF
    (buildActionMessages ctx current_input ccs recent_memory history)).items

/-- Number of oracle invocations performed by a streaming run. -/
def streamOracleCalls (oracle : List Msg → AIResp) (recallF : String → List String)
    (messages : List Msg) : Nat :=
  (generate_response_stream_run oracle recallF messages).responses.length

/-- Concatenation of the content fragments of a stream, progress markers
excluded. -/
def streamText : List StreamItem → String
  | [] => ""
  | StreamItem.content s :: rest => s ++ streamText rest
  | StreamItem.marker :: rest => streamText rest

/-- Structured output of the configuration-revision oracle
(`ContextUpdate` in `IntrospectionAgent.check_and_update_context`). -/
structure ContextUpdate where
  new_user_md : Option String
  new_agents_md : Option String
  reason : String
deriving DecidableEq, Repr

/-- Embedding of `IntrospectionAgent._read_file`
(`src/acc_agent/introspection.py`): the settings directory is a map from
filename to content, `none` meaning the file does not exist. -/
def introspection_read_file (dir : String → Option String) (filename : String) : String :=
  match dir filename with
  | some t => t
  | none => ""

/-- Embedding of `IntrospectionAgent._write_file`
(`src/acc_agent/introspection.py`). -/
def introspection_write_file (dir : String → Option String) (filename content : String) :
    String → Option String :=
  fun f => if f = filename then some content else dir f

/-- Embedding of `IntrospectionAgent.check_and_update_context`
(`src/acc_agent/introspection.py`).  Reads `USER.md` and `AGENTS.md`,
invokes the oracle, and applies each proposal under the source's nested
guards: Python truthiness of the optional field, trimmed inequality with
the current content, then `len(...) > 10`.  On an oracle exception the
whole step degrades to no writes and an empty report. -/
def check_and_update_context
    (oracle : String → String → String → String → Except String ContextUpdate)
    (dir : String → Option String) (user_input agent_response : String) :
    (String → Option String) × List String :=
  let current_user_md := introspection_read_file dir "USER.md"
  let current_agents_md := introspection_read_file dir "AGENTS.md"
  match oracle current_user_md current_agents_md user_input agent_response with
  | Except.error _ => (dir, [])
  | Except.ok result =>
    let step1 : (String → Option String) × List String :=
      match result.new_user_md with
      | none => (dir, [])
      | some s =>
        if s ≠ "" ∧ s.trim ≠ current_user_md.trim then
          if 10 < s.length then (introspection_write_file dir "USER.md" s, ["USER.md"])
          else (dir, [])
        else (dir, [])
    let step2 : (String → Option String) × List String :=
      match result.new_agents_md with
      | none => (step1.1, [])
      | some s =>
        if s ≠ "" ∧ s.trim ≠ current_agents_md.trim then
          if 10 < s.length then (introspection_write_file step1.1 "AGENTS.md" s, ["AGENTS.md"])
          else (step1.1, [])
        else (step1.1, [])
    (step2.1, step1.2 ++ step2.2)

/-- Embedding of `IntrospectionAgent.create_daily_journal_entry`
(`src/acc_agent/introspection.py`): the oracle's `content` with the `NONE`
sentinel mapped to the empty string; on an oracle exception the method
returns the empty string (the `except` branch prints and returns `""`). -/
def create_daily_journal_entry (oracle : String → String → Except String String)
    (user_input agent_response : String) : String :=
  match oracle user_input agent_response with
  | Except.ok content => if content.trim = "NONE" then "" else content
  | Except.error _ => ""

/-- Embedding of `IntrospectionAgent.extract_memories`
(`src/acc_agent/introspection.py`): the extracted fact list, empty on an
oracle exception. -/
def extract_memories (oracle : String → String → String → Except String (List String))
    (user_input agent_response : String) (ccs : Option CompressedCognitiveState) : List String :=
  match oracle user_input agent_response
      (match ccs with | some c => c.semantic_gist | none => "") with
  | Except.ok facts => facts
  | Except.error _ => []

/-- Embedding of `MemoryManager.append_daily_log`
(`src/acc_agent/memory_manager.py`): `log_file` is the current content of
today's daily-log file (`none` when absent); a missing file first receives
the date header, then the content is appended between newlines. -/
def append_daily_log (today_str : String) (log_file : Option String) (content : String) : String :=
  let base := match log_file with
    | none => "# " ++ today_str ++ "\n\n"
    | some t => t
  base ++ "\n" ++ content ++ "\n"

/-- Journal step of `ACCController.finalize_turn` (`src/acc_agent/core.py`):
`append_daily_log` runs only when the introspection cycle produced a
non-empty `journal_entry` (Python truthiness). -/
def finalize_journal_write (today_str : String) (journal_entry : String)
    (log_file : Option String) : Option String :=
  if journal_entry ≠ "" then some (append_daily_log today_str log_file journal_entry)
  else log_file

/-- Capacity of the sliding-window history: `deque(maxlen=15)` in
`ACCController.__init__` (`src/acc_agent/core.py`). -/
def history_maxlen : Nat := 15

/-- One `append` on a `deque(maxlen=maxlen)` holding `q` oldest-first: the
new element goes to the right, evicting from the left past capacity. -/
def dequeAppend {α : Type _} (maxlen : Nat) (q : List α) (x : α) : List α :=
  let q2 := q ++ [x]
  if maxlen < q2.length then q2.drop (q2.length - maxlen) else q2

/-- History update of `ACCController.finalize_turn`:
`HumanMessage(user_input)` then `AIMessage(response_text)` are appended to
the bounded deque. -/
def finalize_history_update (history : List Msg) (user_input response_text : String) : List Msg :=
  dequeAppend history_maxlen
    (dequeAppend history_maxlen history (Msg.human user_input))
    (Msg.ai { content := response_text, tool_calls := [] })

/-- Session-scoped mutable fields of `ACCController` touched by
`prepare_turn`. -/
structure ControllerState where
  current_ccs : Option CompressedCognitiveState
  history : List Msg
  current_recent_memory : String
deriving Repr

/-- Return dictionary of `ACCController.prepare_turn`. -/
structure TurnPrep where
  text : String
  ccs : CompressedCognitiveState
  qualified_artifacts : List String
  recent_memory : String
  history : List Msg
deriving Repr

/-- Embedding of `ACCController.prepare_turn` (`src/acc_agent/core.py`).
File reads are passed in as `ltm_content` (the `MEMORY.md` ledger) and
`recent_logs` (`read_recent_daily_logs()`); `backendQuery` is the vector
store backend.  Returns the updated controller state with the result
dictionary, or the propagated exception; the Python field mutations happen
only after a successful commit, which the `Except` short-circuit mirrors. -/
def prepare_turn
    (backendQuery : String → Nat → Except String (List (List String)))
    (qualifyOracle : QualifyPromptVars → Except String (List String))
    (commitOracle : CommitPromptVars → Except String CompressedCognitiveState)
    (agents_context ltm_content recent_logs : String)
    (st : ControllerState) (user_input : String) :
    Except String (ControllerState × TurnPrep) :=
  let recall_query := user_input ++ "\nContext: " ++
    (match st.current_ccs with | some c => c.semantic_gist | none => "")
  match ArtifactStore.recall backendQuery recall_query 3 with
  | Except.error e => Except.error e
  | Except.ok raw_artifacts =>
    let qualified_artifacts := qualify_artifacts qualifyOracle user_input st.current_ccs raw_artifacts
    match compress_and_commit commitOracle agents_context user_input st.current_ccs
        qualified_artifacts ltm_content with
    | Except.error e => Except.error e
    | Except.ok new_ccs =>
      Except.ok
        ( { st with current_ccs := some new_ccs, current_recent_memory := recent_logs }
        , { text := user_input, ccs := new_ccs, qualified_artifacts := qualified_artifacts
          , recent_memory := recent_logs, history := st.history } )

/-- Python exception semantics around `prepare_turn`: when the call raises,
the controller object keeps all its previous field values. -/
def run_prepare
    (backendQuery : String → Nat → Except String (List (List String)))
    (qualifyOracle : QualifyPromptVars → Except String (List String))
    (commitOracle : CommitPromptVars → Except String CompressedCognitiveState)
    (agents_context ltm_content recent_logs : String)
    (st : ControllerState) (user_input : String) :
    ControllerState × Except String TurnPrep :=
  match prepare_turn backendQuery qualifyOracle commitOracle agents_context ltm_content
      recent_logs st user_input with
  | Except.error e => (st, Except.error e)
  | Except.ok (st2, r) => (st2, Except.ok r)

/-- Embedding of `stream_generator` in `src/server.py`, restricted to its
observable outputs: the yielded chunks and whether the finalize background
task was scheduled.  `prep` is the outcome of `controller.prepare_turn`;
on success, `action_chunks` are the chunks produced by
`controller.stream_action` and `action_error` the exception interrupting
that stream, if any. -/
def stream_generator (prep : Except String TurnPrep)
    (action_chunks : List String) (action_error : Option String) :
    List String × Bool :=
  match prep with
  | Except.error e => (["Error during preparation: " ++ e], false)
  | Except.ok _ =>
    match action_error with
    | some e => (action_chunks ++ ["[Error generating response: " ++ e ++ "]"], false)
    | none => (action_chunks, true)

/-- C5: Qualify degrades rather than fails — for every input, previous CCS
and non-empty artifact list, if the oracle invocation inside
`qualify_artifacts` raises an exception, the function returns the empty
list instead of propagating the error, so the turn continues. -/
theorem C5_qualify_degrades (current_input : String) (ccs : Option CompressedCognitiveState)
    (artifacts : List String) (e : String)
    (oracle : QualifyPromptVars → Except String (List String))
    (hne : artifacts ≠ [])
    (herr : ∀ v, oracle v = Except.error e) :
    qualify_artifacts oracle current_input ccs artifacts = [] := by
  simp [qualify_artifacts, hne, herr]

/-- Witness for C5 at a concrete input: one recalled artifact, an oracle
that always raises. -/
theorem C5_qualify_degrades_witness :
    qualify_artifacts (fun _ => Except.error "rate limited") "What is the plan?" none
      ["old note"] = [] :=
  C5_qualify_degrades "What is the plan?" none ["old note"] "rate limited"
    (fun _ => Except.error "rate limited") (by simp) (fun _ => rfl)

/-- C8 counterexample: when the journal oracle raises,
`create_daily_journal_entry` returns the empty string, and the journal step
of `finalize_turn` leaves the day's journal file untouched — no error
marker and no raw exchange are appended, contrary to the claimed fallback. -/
theorem C8_journal_counterexample :
    create_daily_journal_entry (fun _ _ => Except.error "llm down")
      "Remember: we chose PostgreSQL" "Noted." = ""
    ∧ finalize_journal_write "2026-10-12"
        (create_daily_journal_entry (fun _ _ => Except.error "llm down")
          "Remember: we chose PostgreSQL" "Noted.")
        (some "# 2026-10-12\n\nearlier entries")
      = some "# 2026-10-12\n\nearlier entries" := by
  exact ⟨rfl, rfl⟩

/-- C8 amended: when the oracle call composing the journal update raises,
`create_daily_journal_entry` returns the empty string and `finalize_turn`
skips the journal append entirely, leaving the day's journal file
unchanged — the exchange is not recorded and no error marker is written. -/
theorem C8_journal_failure_drops_entry
    (oracle : String → String → Except String String)
    (user_input agent_response today e : String) (log_file : Option String)
    (herr : oracle user_input agent_response = Except.error e) :
    create_daily_journal_entry oracle user_input agent_response = ""
    ∧ finalize_journal_write today
        (create_daily_journal_entry oracle user_input agent_response) log_file = log_file := by
  simp [create_daily_journal_entry, herr, finalize_journal_write]

/-- Witness for the amended C8 statement at a concrete failing oracle. -/
theorem C8_journal_failure_drops_entry_witness :
    create_daily_journal_entry (fun _ _ => Except.error "timeout") "hi" "hello" = ""
    ∧ finalize_journal_write "2026-10-12"
        (create_daily_journal_entry (fun _ _ => Except.error "timeout") "hi" "hello")
        (some "# 2026-10-12") = some "# 2026-10-12" :=
  C8_journal_failure_drops_entry (fun _ _ => Except.error "timeout")
    "hi" "hello" "2026-10-12" "timeout" (some "# 2026-10-12") rfl

/-- C6 counterexample: with a backend whose query raises, `recall`
propagates the error instead of returning the empty sequence. -/
theorem C6_recall_counterexample :
    ArtifactStore.recall (fun _ _ => Except.error "backend down") "any query" 3
      = Except.error "backend down"
    ∧ ArtifactStore.recall (fun _ _ => Except.error "backend down") "any query" 3
      ≠ Except.ok [] := by
  refine ⟨rfl, ?_⟩
  simp [ArtifactStore.recall]

/-- C6 amended: `recall` returns the backend's first document list — the
empty sequence when the backend reports no documents (in particular on an
empty store) — and at most `k` strings whenever the backend honours its
`n_results` bound; a backend error, however, propagates to the caller. -/
theorem C6_recall_amended
    (backendQuery : String → Nat → Except String (List (List String)))
    (query : String) (k : Nat) (docs : List (List String))
    (hok : backendQuery query k = Except.ok docs)
    (hlen : ∀ d ∈ docs, d.length ≤ k) :
    ArtifactStore.recall backendQuery query k = Except.ok (docs.headD [])
    ∧ (docs.headD []).length ≤ k
    ∧ (docs = [] → ArtifactStore.recall backendQuery query k = Except.ok []) := by
  cases docs with
  | nil => simp [ArtifactStore.recall, hok]
  | cons d rest =>
    refine ⟨?_, ?_, by simp⟩
    · simp [ArtifactStore.recall, hok]
    · exact hlen d (by simp)

/-- Witness for the amended C6 statement: an empty store whose backend
returns one empty document list. -/
theorem C6_recall_amended_witness :
    ArtifactStore.recall (fun _ _ => Except.ok [[]]) "anything" 3
      = Except.ok (([[]] : List (List String)).headD [])
    ∧ (([[]] : List (List String)).headD []).length ≤ 3
    ∧ (([[]] : List (List String)) = [] →
        ArtifactStore.recall (fun _ _ => Except.ok [[]]) "anything" 3 = Except.ok []) :=
  C6_recall_amended (fun _ _ => Except.ok [[]]) "anything" 3 [[]] rfl (by simp)

/-- C1 amended: `compress_and_commit` performs no enforcement of the
sticky-field invariant — a successful commit returns exactly the CCS the
oracle emitted for the built prompt variables, every field included, so
monotonicity of `constraints` and `goal_orientation` holds after a commit
only when the oracle's own output already satisfies it. -/
theorem C1_commit_is_oracle_output
    (oracle : CommitPromptVars → Except String CompressedCognitiveState)
    (agents_context current_input : String) (prev_ccs : Option CompressedCognitiveState)
    (qualified_artifacts : List String) (long_term_memory : String)
    (new_ccs : CompressedCognitiveState)
    (h : compress_and_commit oracle agents_context current_input prev_ccs
          qualified_artifacts long_term_memory = Except.ok new_ccs) :
    oracle (commitPromptVars agents_context current_input prev_ccs
      qualified_artifacts long_term_memory) = Except.ok new_ccs := h

/-- Witness for the amended C1 statement at a concrete oracle and state. -/
theorem C1_commit_is_oracle_output_witness :
    (fun (_ : CommitPromptVars) =>
        (Except.ok (⟨"t", "g", [], [], "goal", ["keep it"], none, "low", []⟩ :
          CompressedCognitiveState) : Except String CompressedCognitiveState))
      (commitPromptVars "rules" "hello" none [] "")
      = Except.ok (⟨"t", "g", [], [], "goal", ["keep it"], none, "low", []⟩ :
          CompressedCognitiveState) :=
  C1_commit_is_oracle_output
    (fun _ => Except.ok ⟨"t", "g", [], [], "goal", ["keep it"], none, "low", []⟩)
    "rules" "hello" none [] ""
    ⟨"t", "g", [], [], "goal", ["keep it"], none, "low", []⟩ rfl

/-- C1 counterexample: a commit whose oracle output silently drops the
previous sticky constraint and goal succeeds verbatim — for the input
`"hello"`, which contains no revision instruction, the committed CCS's
`constraints` are not a superset of the previous ones and the
`goal_orientation` changed. -/
theorem C1_sticky_counterexample :
    compress_and_commit (fun _ => Except.ok ⟨"", "", [], [], "", [], none, "", []⟩)
      "" "hello"
      (some ⟨"t", "g", [], [], "stay on task", ["never delete files"], none, "", []⟩)
      [] ""
      = Except.ok ⟨"", "", [], [], "", [], none, "", []⟩
    ∧ "never delete files" ∈
        (⟨"t", "g", [], [], "stay on task", ["never delete files"], none, "", []⟩ :
          CompressedCognitiveState).constraints
    ∧ "never delete files" ∉
        (⟨"", "", [], [], "", [], none, "", []⟩ : CompressedCognitiveState).constraints
    ∧ (⟨"", "", [], [], "", [], none, "", []⟩ :
        CompressedCognitiveState).goal_orientation ≠
      (⟨"t", "g", [], [], "stay on task", ["never delete files"], none, "", []⟩ :
        CompressedCognitiveState).goal_orientation := by
  refine ⟨rfl, by simp, by simp, by simp⟩

/-- C4: Compress-and-Commit failure is fatal and atomic — when the commit
oracle raises, the exception propagates out of `prepare_turn`, the
controller's state (current CCS, short-term history, recent-memory cache)
is left exactly as before the turn, and the server's `stream_generator`
informs the caller with a single error chunk and schedules no finalize
task. -/
theorem C4_commit_failure_fatal
    (backendQuery : String → Nat → Except String (List (List String)))
    (qualifyOracle : QualifyPromptVars → Except String (List String))
    (commitOracle : CommitPromptVars → Except String CompressedCognitiveState)
    (agents_context ltm_content recent_logs user_input e : String)
    (st : ControllerState)
    (raw : String → Nat → List (List String))
    (hback : ∀ q n, backendQuery q n = Except.ok (raw q n))
    (hcommit : ∀ v, commitOracle v = Except.error e)
    (action_chunks : List String) (action_error : Option String) :
    run_prepare backendQuery qualifyOracle commitOracle agents_context ltm_content
        recent_logs st user_input = (st, Except.error e)
    ∧ stream_generator
        (run_prepare backendQuery qualifyOracle commitOracle agents_context ltm_content
          recent_logs st user_input).2 action_chunks action_error
        = (["Error during preparation: " ++ e], false) := by
  have hrec : ∀ q, ∃ a, ArtifactStore.recall backendQuery q 3 = Except.ok a := by
    intro q
    cases h : raw q 3 with
    | nil => exact ⟨[], by simp [ArtifactStore.recall, hback, h]⟩
    | cons d rest => exact ⟨d, by simp [ArtifactStore.recall, hback, h]⟩
  choose arts harts using hrec
  have hprep : prepare_turn backendQuery qualifyOracle commitOracle agents_context
      ltm_content recent_logs st user_input = Except.error e := by
    simp only [prepare_turn, harts]
    simp [compress_and_commit, hcommit]
  have hrun : run_prepare backendQuery qualifyOracle commitOracle agents_context
      ltm_content recent_logs st user_input = (st, Except.error e) := by
    simp [run_prepare, hprep]
  exact ⟨hrun, by rw [hrun]; rfl⟩

/-- Witness for C4 at a concrete controller state and a commit oracle that
always raises. -/
theorem C4_commit_failure_fatal_witness :
    run_prepare (fun _ _ => Except.ok []) (fun _ => Except.ok [])
        (fun _ => Except.error "model unavailable") "rules" "" "" ⟨none, [], ""⟩ "hi"
      = (⟨none, [], ""⟩, Except.error "model unavailable")
    ∧ stream_generator
        (run_prepare (fun _ _ => Except.ok []) (fun _ => Except.ok [])
          (fun _ => Except.error "model unavailable") "rules" "" "" ⟨none, [], ""⟩ "hi").2
        [] none
      = (["Error during preparation: " ++ "model unavailable"], false) :=
  C4_commit_failure_fatal (fun _ _ => Except.ok []) (fun _ => Except.ok [])
    (fun _ => Except.error "model unavailable") "rules" "" "" "hi" "model unavailable"
    ⟨none, [], ""⟩ (fun _ _ => []) (fun _ _ => rfl) (fun _ => rfl) [] none

/-- C7: configuration rewrite gating — a document is rewritten (and then
reported by name) exactly when the oracle supplied new content for it
(Python truthiness: a non-`None`, non-empty string), the new content
differs from the current file content after trimming whitespace, and its
length exceeds the 10-character floor; a rejected proposal leaves the
document unchanged. -/
theorem C7_config_rewrite_gating
    (oracle : String → String → String → String → Except String ContextUpdate)
    (dir : String → Option String) (user_input agent_response : String)
    (result : ContextUpdate)
    (hok : oracle (introspection_read_file dir "USER.md")
        (introspection_read_file dir "AGENTS.md") user_input agent_response
        = Except.ok result) :
    ("USER.md" ∈ (check_and_update_context oracle dir user_input agent_response).2
      ↔ ∃ s, result.new_user_md = some s ∧ (s ≠ ""
          ∧ s.trim ≠ (introspection_read_file dir "USER.md").trim) ∧ 10 < s.length)
    ∧ ("AGENTS.md" ∈ (check_and_update_context oracle dir user_input agent_response).2
      ↔ ∃ s, result.new_agents_md = some s ∧ (s ≠ ""
          ∧ s.trim ≠ (introspection_read_file dir "AGENTS.md").trim) ∧ 10 < s.length)
    ∧ ("USER.md" ∈ (check_and_update_context oracle dir user_input agent_response).2 →
        (check_and_update_context oracle dir user_input agent_response).1 "USER.md"
          = result.new_user_md)
    ∧ ("USER.md" ∉ (check_and_update_context oracle dir user_input agent_response).2 →
        (check_and_update_context oracle dir user_input agent_response).1 "USER.md"
          = dir "USER.md")
    ∧ ("AGENTS.md" ∈ (check_and_update_context oracle dir user_input agent_response).2 →
        (check_and_update_context oracle dir user_input agent_response).1 "AGENTS.md"
          = result.new_agents_md)
    ∧ ("AGENTS.md" ∉ (check_and_update_context oracle dir user_input agent_response).2 →
        (check_and_update_context oracle dir user_input agent_response).1 "AGENTS.md"
          = dir "AGENTS.md") := by
  obtain ⟨nu, na, rs⟩ := result
  simp only [check_and_update_context, hok]
  cases nu <;> cases na <;> dsimp only <;> try split_ifs
  all_goals simp_all [introspection_write_file]

/-- Witness for C7: a concrete oracle proposing a valid `USER.md` rewrite
and an identical-after-trim `AGENTS.md` rewrite; only `USER.md` changes. -/
theorem C7_config_rewrite_gating_witness :
    ("USER.md" ∈ (check_and_update_context
        (fun _ _ _ _ => Except.ok ⟨some "new long user profile", some "  rules  ", "r"⟩)
        (fun f => if f = "AGENTS.md" then some "rules" else none) "u" "a").2
      ↔ ∃ s, (some "new long user profile" : Option String) = some s ∧ (s ≠ ""
          ∧ s.trim ≠ (introspection_read_file
              (fun f => if f = "AGENTS.md" then some "rules" else none) "USER.md").trim)
          ∧ 10 < s.length) := by
  have h := C7_config_rewrite_gating
    (fun _ _ _ _ => Except.ok ⟨some "new long user profile", some "  rules  ", "r"⟩)
    (fun f => if f = "AGENTS.md" then some "rules" else none) "u" "a"
    ⟨some "new long user profile", some "  rules  ", "r"⟩ rfl
  exact h.1

/-- C10: frame property of configuration self-revision — for every oracle
outcome, `check_and_update_context` can only write `USER.md` and
`AGENTS.md`: every other file of the settings directory, in particular
`IDENTITY.md` and `SOUL.md`, keeps its previous content, and the returned
list of updated files only ever names `USER.md` or `AGENTS.md`. -/
theorem C10_config_revision_frame
    (oracle : String → String → String → String → Except String ContextUpdate)
    (dir : String → Option String) (user_input agent_response : String) :
    (∀ f : String, f ≠ "USER.md" → f ≠ "AGENTS.md" →
        (check_and_update_context oracle dir user_input agent_response).1 f = dir f)
    ∧ (check_and_update_context oracle dir user_input agent_response).1 "IDENTITY.md"
        = dir "IDENTITY.md"
    ∧ (check_and_update_context oracle dir user_input agent_response).1 "SOUL.md"
        = dir "SOUL.md"
    ∧ (∀ f ∈ (check_and_update_context oracle dir user_input agent_response).2,
        f = "USER.md" ∨ f = "AGENTS.md") := by
  have frame : ∀ f : String, f ≠ "USER.md" → f ≠ "AGENTS.md" →
      (check_and_update_context oracle dir user_input agent_response).1 f = dir f := by
    intro f h1 h2
    simp only [check_and_update_context]
    cases oracle (introspection_read_file dir "USER.md")
        (introspection_read_file dir "AGENTS.md") user_input agent_response with
    | error e => rfl
    | ok result =>
      obtain ⟨nu, na, rs⟩ := result
      cases nu <;> cases na <;> dsimp only <;> try split_ifs
      all_goals simp_all [introspection_write_file]
  have hsub : ∀ f ∈ (check_and_update_context oracle dir user_input agent_response).2,
      f = "USER.md" ∨ f = "AGENTS.md" := by
    intro f hf
    simp only [check_and_update_context] at hf
    cases h : oracle (introspection_read_file dir "USER.md")
        (introspection_read_file dir "AGENTS.md") user_input agent_response with
    | error e => rw [h] at hf; simp_all
    | ok result =>
      rw [h] at hf
      obtain ⟨nu, na, rs⟩ := result
      cases nu <;> cases na <;> dsimp only at hf <;> try split_ifs at hf
      all_goals simp_all
  exact ⟨frame, frame _ (by decide) (by decide), frame _ (by decide) (by decide), hsub⟩

/-- Witness for C10 at a concrete oracle, directory and conversation. -/
theorem C10_config_revision_frame_witness :
    (check_and_update_context
        (fun _ _ _ _ => Except.ok ⟨some "completely new user profile", none, "r"⟩)
        (fun f => if f = "IDENTITY.md" then some "identity text" else none) "u" "a").1
      "IDENTITY.md" = some "identity text" := by
  have h := C10_config_revision_frame
    (fun _ _ _ _ => Except.ok ⟨some "completely new user profile", none, "r"⟩)
    (fun f => if f = "IDENTITY.md" then some "identity text" else none) "u" "a"
  simpa using h.2.1

/-- Interleaving of (user input, agent reply) pairs into the message
sequence appended by successive `finalize_turn` calls. -/
def interleaveTurns : List (String × String) → List Msg
  | [] => []
  | p :: rest =>
    Msg.human p.1 :: Msg.ai { content := p.2, tool_calls := [] } :: interleaveTurns rest

/-- Closed form of a single bounded-deque append: the last `maxlen`
elements of `q ++ [x]`. -/
theorem dequeAppend_closed_form {α : Type _} (maxlen : Nat) (q : List α) (x : α) :
    dequeAppend maxlen q x = (q ++ [x]).drop ((q ++ [x]).length - maxlen) := by
  unfold dequeAppend
  dsimp only
  split_ifs with h
  · rfl
  · have h0 : (q ++ [x]).length - maxlen = 0 := by omega
    rw [h0, List.drop_zero]

/-- Closed form of folding bounded-deque appends: the last `maxlen`
elements of the whole sequence. -/
theorem foldl_dequeAppend_closed_form {α : Type _} (maxlen : Nat) (l : List α) :
    ∀ q : List α, q.length ≤ maxlen →
      List.foldl (dequeAppend maxlen) q l = (q ++ l).drop ((q ++ l).length - maxlen) := by
  induction l with
  | nil =>
    intro q hq
    have h0 : q.length - maxlen = 0 := by omega
    simp [h0]
  | cons x xs ih =>
    intro q hq
    rw [List.foldl_cons]
    have hlen : (dequeAppend maxlen q x).length ≤ maxlen := by
      rw [dequeAppend_closed_form, List.length_drop]
      omega
    rw [ih (dequeAppend maxlen q x) hlen, dequeAppend_closed_form]
    have hle : (q ++ [x]).length - maxlen ≤ (q ++ [x]).length := by omega
    rw [← List.drop_append_of_le_length hle]
    rw [List.drop_drop]
    rw [List.append_assoc, List.singleton_append]
    congr 1
    simp only [List.length_drop, List.length_append, List.length_cons,
      List.length_nil]
    omega

/-- Length of the fold stays within the capacity. -/
theorem foldl_dequeAppend_length_le {α : Type _} (maxlen : Nat) (l : List α) :
    (List.foldl (dequeAppend maxlen) [] l).length ≤ maxlen := by
  rw [foldl_dequeAppend_closed_form maxlen l [] (by simp)]
  rw [List.length_drop]
  omega

/-- Per-turn history updates coincide with folding single deque appends
over the interleaved message sequence. -/
theorem finalize_history_foldl (pairs : List (String × String)) :
    ∀ q : List Msg,
      pairs.foldl (fun h p => finalize_history_update h p.1 p.2) q
        = List.foldl (dequeAppend history_maxlen) q (interleaveTurns pairs) := by
  induction pairs with
  | nil => intro q; rfl
  | cons p rest ih =>
    intro q
    rw [List.foldl_cons]
    rw [ih (finalize_history_update q p.1 p.2)]
    rfl

/-- Interleaving doubles the length. -/
theorem interleaveTurns_length (pairs : List (String × String)) :
    (interleaveTurns pairs).length = 2 * pairs.length := by
  induction pairs with
  | nil => rfl
  | cons p rest ih => simp [interleaveTurns, ih]; omega

/-- C9: short-term window bound — the history deque has fixed capacity 15
and never exceeds it; appending K (input, reply) turn pairs, i.e. 2K
messages with 2K above the capacity, leaves exactly the most recent 15
messages of the interleaved sequence, oldest first, the oldest entries
having been evicted silently. -/
theorem C9_history_window_bound (K : Nat) (pairs : List (String × String))
    (ms : List Msg) (hK : pairs.length = K) (hcap : history_maxlen < 2 * K) :
    history_maxlen = 15
    ∧ (List.foldl (dequeAppend history_maxlen) [] ms).length ≤ history_maxlen
    ∧ pairs.foldl (fun h p => finalize_history_update h p.1 p.2) []
        = (interleaveTurns pairs).drop (2 * K - history_maxlen)
    ∧ (pairs.foldl (fun h p => finalize_history_update h p.1 p.2) []).length
        = history_maxlen := by
  have hclosed : pairs.foldl (fun h p => finalize_history_update h p.1 p.2) []
      = (interleaveTurns pairs).drop (2 * K - history_maxlen) := by
    rw [finalize_history_foldl pairs []]
    rw [foldl_dequeAppend_closed_form history_maxlen (interleaveTurns pairs) [] (by simp)]
    simp [interleaveTurns_length, hK]
  refine ⟨rfl, foldl_dequeAppend_length_le _ _, hclosed, ?_⟩
  rw [hclosed, List.length_drop, interleaveTurns_length, hK]
  have h15 : history_maxlen = 15 := rfl
  omega

/-- Witness for C9: 10 turns (20 messages) against capacity 15; the fold
keeps exactly the last 15 messages. -/
theorem C9_history_window_bound_witness :
    history_maxlen = 15
    ∧ (List.foldl (dequeAppend history_maxlen) []
        [Msg.human "a", Msg.human "b"]).length ≤ history_maxlen
    ∧ (List.replicate 10 ("u", "r")).foldl
          (fun h p => finalize_history_update h p.1 p.2) []
        = (interleaveTurns (List.replicate 10 ("u", "r"))).drop (2 * 10 - history_maxlen)
    ∧ ((List.replicate 10 ("u", "r")).foldl
          (fun h p => finalize_history_update h p.1 p.2) []).length
        = history_maxlen :=
  C9_history_window_bound 10 (List.replicate 10 ("u", "r"))
    [Msg.human "a", Msg.human "b"] (by decide) (by decide)

/-- The loop performs at most `fuel` re-invocations. -/
theorem generate_response_aux_reinvocations_le (oracle : List Msg → AIResp)
    (recallF : String → List String) :
    ∀ (fuel : Nat) (messages : List Msg) (ai_msg : AIResp),
      (generate_response_aux oracle recallF fuel messages ai_msg).reinvocations.length ≤ fuel := by
  intro fuel
  induction fuel with
  | zero => intro m a; simp [generate_response_aux]
  | succ f ih =>
    intro m a
    by_cases h : a.tool_calls = []
    · simp [generate_response_aux, h]
    · simp only [generate_response_aux, h, if_neg, ite_false, List.length_cons]
      exact Nat.succ_le_succ (ih _ _)

/-- The returned `final` response is the last oracle response of the run. -/
theorem generate_response_aux_final_eq_last (oracle : List Msg → AIResp)
    (recallF : String → List String) :
    ∀ (fuel : Nat) (messages : List Msg) (ai_msg : AIResp),
      (generate_response_aux oracle recallF fuel messages ai_msg).final
        = (generate_response_aux oracle recallF fuel messages ai_msg).reinvocations.getLastD ai_msg := by
  intro fuel
  induction fuel with
  | zero => intro m a; simp [generate_response_aux]
  | succ f ih =>
    intro m a
    by_cases h : a.tool_calls = []
    · simp [generate_response_aux, h]
    · simp only [generate_response_aux, h, if_neg, ite_false]
      rw [List.getLastD_cons]
      exact ih _ _

/-- With an oracle that always requests a capability, the loop exhausts
its fuel exactly. -/
theorem generate_response_aux_saturated (oracle : List Msg → AIResp)
    (recallF : String → List String)
    (hall : ∀ ms, (oracle ms).tool_calls ≠ []) :
    ∀ (fuel : Nat) (messages : List Msg) (ai_msg : AIResp), ai_msg.tool_calls ≠ [] →
      (generate_response_aux oracle recallF fuel messages ai_msg).reinvocations.length = fuel := by
  intro fuel
  induction fuel with
  | zero => intro m a _; simp [generate_response_aux]
  | succ f ih =>
    intro m a ha
    simp only [generate_response_aux, ha, if_neg, ite_false, List.length_cons]
    rw [ih _ _ (hall _)]

/-- The streaming loop consumes at most `fuel` oracle responses. -/
theorem generate_response_stream_aux_responses_le (oracle : List Msg → AIResp)
    (recallF : String → List String) :
    ∀ (fuel : Nat) (messages : List Msg),
      (generate_response_stream_aux oracle recallF fuel messages).responses.length ≤ fuel := by
  intro fuel
  induction fuel with
  | zero => intro m; simp [generate_response_stream_aux]
  | succ f ih =>
    intro m
    by_cases h : (oracle m).tool_calls = []
    · simp [generate_response_stream_aux, h]
    · simp only [generate_response_stream_aux, h, if_neg, ite_false, List.length_cons]
      exact Nat.succ_le_succ (ih _)

/-- C2: bounded tool-call loop — for every oracle (in particular one whose
every response requests the search-memory capability) `generate_response`
performs at most 3 oracle re-invocations after the initial call, exactly 3
when the oracle always requests a capability, and returns the content of
the last oracle response of the run; the streaming variant likewise
consumes at most 3 oracle responses in total. -/
theorem C2_bounded_tool_loop (oracle : List Msg → AIResp) (recallF : String → List String)
    (ctx : AgentEngineCtx) (current_input : String) (ccs : CompressedCognitiveState)
    (recent_memory : String) (history : List Msg) :
    (generate_response_run oracle recallF
        (buildActionMessages ctx current_input ccs recent_memory history)).reinvocations.length ≤ 3
    ∧ generate_response oracle recallF ctx current_input ccs recent_memory history
        = ((generate_response_run oracle recallF
            (buildActionMessages ctx current_input ccs recent_memory history)).reinvocations.getLastD
            (oracle (buildActionMessages ctx current_input ccs recent_memory history))).content
    ∧ ((∀ ms, (oracle ms).tool_calls ≠ []) →
        (generate_response_run oracle recallF
          (buildActionMessages ctx current_input ccs recent_memory history)).reinvocations.length = 3)
    ∧ streamOracleCalls oracle recallF
        (buildActionMessages ctx current_input ccs recent_memory history) ≤ 3 := by
  refine ⟨generate_response_aux_reinvocations_le oracle recallF 3 _ _, ?_, ?_, ?_⟩
  · unfold generate_response generate_response_run
    rw [generate_response_aux_final_eq_last oracle recallF 3 _ _]
  · intro hall
    exact generate_response_aux_saturated oracle recallF hall 3 _ _ (hall _)
  · exact generate_response_stream_aux_responses_le oracle recallF 3 _

/-- Witness for C2 at an oracle that always requests the capability: the
loop stops after exactly 3 re-invocations and the reply is the last
response's content. -/
theorem C2_bounded_tool_loop_witness :
    (generate_response_run
        (fun _ => { content := "again", tool_calls := [⟨"search_memory", "q", "1"⟩] })
        (fun _ => [])
        (buildActionMessages ⟨"", "", "", ""⟩ "hi"
          ⟨"", "", [], [], "", [], none, "", []⟩ "" [])).reinvocations.length ≤ 3
    ∧ generate_response
        (fun _ => { content := "again", tool_calls := [⟨"search_memory", "q", "1"⟩] })
        (fun _ => []) ⟨"", "", "", ""⟩ "hi" ⟨"", "", [], [], "", [], none, "", []⟩ "" []
        = ((generate_response_run
            (fun _ => { content := "again", tool_calls := [⟨"search_memory", "q", "1"⟩] })
            (fun _ => [])
            (buildActionMessages ⟨"", "", "", ""⟩ "hi"
              ⟨"", "", [], [], "", [], none, "", []⟩ "" [])).reinvocations.getLastD
            ((fun (_ : List Msg) =>
                ({ content := "again", tool_calls := [⟨"search_memory", "q", "1"⟩] } : AIResp))
              (buildActionMessages ⟨"", "", "", ""⟩ "hi"
                ⟨"", "", [], [], "", [], none, "", []⟩ "" []))).content
    ∧ ((∀ ms : List Msg,
          ((fun (_ : List Msg) =>
              ({ content := "again", tool_calls := [⟨"search_memory", "q", "1"⟩] } : AIResp))
            ms).tool_calls ≠ []) →
        (generate_response_run
          (fun _ => { content := "again", tool_calls := [⟨"search_memory", "q", "1"⟩] })
          (fun _ => [])
          (buildActionMessages ⟨"", "", "", ""⟩ "hi"
            ⟨"", "", [], [], "", [], none, "", []⟩ "" [])).reinvocations.length = 3)
    ∧ streamOracleCalls
        (fun _ => { content := "again", tool_calls := [⟨"search_memory", "q", "1"⟩] })
        (fun _ => [])
        (buildActionMessages ⟨"", "", "", ""⟩ "hi"
          ⟨"", "", [], [], "", [], none, "", []⟩ "" []) ≤ 3 :=
  C2_bounded_tool_loop
    (fun _ => { content := "again", tool_calls := [⟨"search_memory", "q", "1"⟩] })
    (fun _ => []) ⟨"", "", "", ""⟩ "hi" ⟨"", "", [], [], "", [], none, "", []⟩ "" []

/-- Both loop variants execute exactly the same capability calls in the
same order, for every oracle and every fuel. -/
theorem sync_stream_tools_eq (oracle : List Msg → AIResp) (recallF : String → List String) :
    ∀ (fuel : Nat) (messages : List Msg),
      (generate_response_aux oracle recallF fuel messages (oracle messages)).tools
        = (generate_response_stream_aux oracle recallF fuel messages).tools := by
  intro fuel
  induction fuel with
  | zero => intro m; simp [generate_response_aux, generate_response_stream_aux]
  | succ f ih =>
    intro m
    by_cases h : (oracle m).tool_calls = []
    · simp [generate_response_aux, generate_response_stream_aux, h]
    · simp only [generate_response_aux, generate_response_stream_aux, h, ite_false]
      rw [ih]

/-- When every capability-requesting response carries empty content and the
streaming run reaches a response with no capability request, the streamed
text equals the synchronous reply and the two runs consume equally many
oracle responses. -/
theorem sync_stream_agree (oracle : List Msg → AIResp) (recallF : String → List String)
    (hempty : ∀ ms, (oracle ms).tool_calls ≠ [] → (oracle ms).content = "") :
    ∀ (fuel : Nat) (messages : List Msg),
      (∃ r ∈ (generate_response_stream_aux oracle recallF fuel messages).responses,
          r.tool_calls = []) →
      streamText (generate_response_stream_aux oracle recallF fuel messages).items
          = (generate_response_aux oracle recallF fuel messages (oracle messages)).final.content
      ∧ (generate_response_stream_aux oracle recallF fuel messages).responses.length
          = (generate_response_aux oracle recallF fuel messages
              (oracle messages)).reinvocations.length + 1 := by
  intro fuel
  induction fuel with
  | zero =>
    intro m hex
    simp [generate_response_stream_aux] at hex
  | succ f ih =>
    intro m hex
    by_cases h : (oracle m).tool_calls = []
    · constructor
      · simp [generate_response_stream_aux, generate_response_aux, h, streamText]
      · simp [generate_response_stream_aux, generate_response_aux, h]
    · have hc : (oracle m).content = "" := hempty m h
      simp only [generate_response_stream_aux, generate_response_aux, h, ite_false] at hex ⊢
      rcases hex with ⟨r, hr, hrt⟩
      rcases List.mem_cons.mp hr with heq | hr2
      · exact absurd hrt (heq ▸ h)
      · have hrec := ih _ ⟨r, hr2, hrt⟩
        simp only [List.append_assoc, List.singleton_append] at hrec
        constructor
        · simp [streamText, hc, hrec.1]
        · simp [hrec.2]

/-- C3 amended: the two response variants execute the same capability calls
in the same order for every oracle; and whenever every capability-requesting
oracle response carries empty content and the oracle stops requesting the
capability within the streaming run's three responses, the concatenation of
the streamed content fragments (progress markers excluded) equals the
synchronous reply and both variants perform the same number of oracle
calls.  In general the streaming variant concatenates the contents of all
its responses while the synchronous variant returns only the final
response's content, and a saturated run makes 4 synchronous but only 3
streaming oracle calls. -/
theorem C3_stream_sync_equiv_amended (oracle : List Msg → AIResp)
    (recallF : String → List String) (ctx : AgentEngineCtx) (current_input : String)
    (ccs : CompressedCognitiveState) (recent_memory : String) (history : List Msg)
    (hempty : ∀ ms, (oracle ms).tool_calls ≠ [] → (oracle ms).content = "")
    (hterm : ∃ r ∈ (generate_response_stream_run oracle recallF
        (buildActionMessages ctx current_input ccs recent_memory history)).responses,
        r.tool_calls = []) :
    streamText (generate_response_stream oracle recallF ctx current_input ccs
        recent_memory history)
      = generate_response oracle recallF ctx current_input ccs recent_memory history
    ∧ streamOracleCalls oracle recallF
        (buildActionMessages ctx current_input ccs recent_memory history)
      = syncOracleCalls oracle recallF
        (buildActionMessages ctx current_input ccs recent_memory history)
    ∧ (generate_response_stream_run oracle recallF
        (buildActionMessages ctx current_input ccs recent_memory history)).tools
      = (generate_response_run oracle recallF
        (buildActionMessages ctx current_input ccs recent_memory history)).tools := by
  have h := sync_stream_agree oracle recallF hempty 3
    (buildActionMessages ctx current_input ccs recent_memory history) hterm
  refine ⟨h.1, ?_, (sync_stream_tools_eq oracle recallF 3 _).symm⟩
  simp only [streamOracleCalls, syncOracleCalls, generate_response_stream_run,
    generate_response_run]
  exact h.2

/-- Witness for the amended C3 statement: an oracle that immediately
answers with no capability request. -/
theorem C3_stream_sync_equiv_amended_witness :
    streamText (generate_response_stream
        (fun _ => { content := "done", tool_calls := [] }) (fun _ => [])
        ⟨"", "", "", ""⟩ "hi" ⟨"", "", [], [], "", [], none, "", []⟩ "" [])
      = generate_response (fun _ => { content := "done", tool_calls := [] }) (fun _ => [])
        ⟨"", "", "", ""⟩ "hi" ⟨"", "", [], [], "", [], none, "", []⟩ "" []
    ∧ streamOracleCalls (fun _ => { content := "done", tool_calls := [] }) (fun _ => [])
        (buildActionMessages ⟨"", "", "", ""⟩ "hi"
          ⟨"", "", [], [], "", [], none, "", []⟩ "" [])
      = syncOracleCalls (fun _ => { content := "done", tool_calls := [] }) (fun _ => [])
        (buildActionMessages ⟨"", "", "", ""⟩ "hi"
          ⟨"", "", [], [], "", [], none, "", []⟩ "" [])
    ∧ (generate_response_stream_run (fun _ => { content := "done", tool_calls := [] })
        (fun _ => [])
        (buildActionMessages ⟨"", "", "", ""⟩ "hi"
          ⟨"", "", [], [], "", [], none, "", []⟩ "" [])).tools
      = (generate_response_run (fun _ => { content := "done", tool_calls := [] })
        (fun _ => [])
        (buildActionMessages ⟨"", "", "", ""⟩ "hi"
          ⟨"", "", [], [], "", [], none, "", []⟩ "" [])).tools :=
  C3_stream_sync_equiv_amended (fun _ => { content := "done", tool_calls := [] })
    (fun _ => []) ⟨"", "", "", ""⟩ "hi" ⟨"", "", [], [], "", [], none, "", []⟩ "" []
    (fun _ hne => absurd rfl hne) (by decide)

/-- C3 counterexample: with a deterministic oracle whose first response
carries content "A" together with one search request and whose follow-up
carries content "B" with no request, the streamed text is "AB" while the
synchronous reply is "B"; and with an oracle that always requests the
capability, the synchronous variant performs 4 oracle calls while the
streaming variant performs only 3. -/
theorem C3_stream_sync_counterexample :
    streamText (generate_response_stream
        (fun ms => if ms.any (fun m => match m with | Msg.tool _ _ => true | _ => false)
          then { content := "B", tool_calls := [] }
          else { content := "A", tool_calls := [⟨"search_memory", "code", "1"⟩] })
        (fun _ => []) ⟨"", "", "", ""⟩ "hi" ⟨"", "", [], [], "", [], none, "", []⟩ "" [])
      = "AB"
    ∧ generate_response
        (fun ms => if ms.any (fun m => match m with | Msg.tool _ _ => true | _ => false)
          then { content := "B", tool_calls := [] }
          else { content := "A", tool_calls := [⟨"search_memory", "code", "1"⟩] })
        (fun _ => []) ⟨"", "", "", ""⟩ "hi" ⟨"", "", [], [], "", [], none, "", []⟩ "" []
      = "B"
    ∧ streamText (generate_response_stream
        (fun ms => if ms.any (fun m => match m with | Msg.tool _ _ => true | _ => false)
          then { content := "B", tool_calls := [] }
          else { content := "A", tool_calls := [⟨"search_memory", "code", "1"⟩] })
        (fun _ => []) ⟨"", "", "", ""⟩ "hi" ⟨"", "", [], [], "", [], none, "", []⟩ "" [])
      ≠ generate_response
        (fun ms => if ms.any (fun m => match m with | Msg.tool _ _ => true | _ => false)
          then { content := "B", tool_calls := [] }
          else { content := "A", tool_calls := [⟨"search_memory", "code", "1"⟩] })
        (fun _ => []) ⟨"", "", "", ""⟩ "hi" ⟨"", "", [], [], "", [], none, "", []⟩ "" []
    ∧ syncOracleCalls
        (fun _ => { content := "", tool_calls := [⟨"search_memory", "q", "1"⟩] })
        (fun _ => []) [Msg.human "x"] = 4
    ∧ streamOracleCalls
        (fun _ => { content := "", tool_calls := [⟨"search_memory", "q", "1"⟩] })
        (fun _ => []) [Msg.human "x"] = 3 := by
  refine ⟨by decide, by decide, by decide, by decide, by decide⟩

end ACC
